import Mathlib

/-!
Verification development for the Salesforce dashboard server (`src/server.js`).

The repository is a Node/Express service that synchronizes Salesforce
opportunity records into a local store (SQLite or PostgreSQL), merges
activity signals into a derived last-contact date, and serves filtered
views decorated with user annotations.

This file gives a shallow embedding of the relevant functions:

* `SalesforceService.getAllOpportunities` exclusion filter and
  `SalesforceService.addLastContactDates` (activity merge / batching);
* `DatabaseService.upsertOpportunity` under both `INSERT OR REPLACE`
  (SQLite) and the `ON CONFLICT (sf_id) DO UPDATE` clause produced by
  `convertSqlToPostgres`;
* `DatabaseService.syncFromSalesforce` and `logSync`;
* `DatabaseService.checkNeedsFollowUp` / `getFollowUpReason`;
* `DatabaseService.getWeekDateRange` and the week filter of
  `getOpportunities`;
* `DatabaseService.saveUserPreferences` / `saveMultipleUserPreferences`.

Modelling conventions: timestamps are integers (milliseconds since the Unix
epoch for instants, days since the epoch for calendar arithmetic); the
server's local timezone is taken to be UTC, so the JavaScript local-time
`Date` constructors coincide with UTC calendar arithmetic; SQL values are a
small inductive (`SVal`), JavaScript values another (`JVal`) with explicit
truthiness; remote query results and database write outcomes are explicit
parameters, since they are I/O.
-/

namespace SalesforceDashboard

/-! ## String helpers

JS `String.prototype.toLowerCase` / `String.prototype.includes` as used by
the source, implemented structurally over `List Char` so the kernel can
evaluate them.  Lowercasing is ASCII (all substrings compared by the
source are ASCII).
-/

/-- ASCII lower-casing of one character (JS `toLowerCase` restricted to the
ASCII letters actually compared by the source). -/
def charLower (c : Char) : Char :=
  if 'A' ≤ c && c ≤ 'Z' then Char.ofNat (c.toNat + 32) else c

/-- Lower-case a string character-wise. -/
def strLower (s : String) : String := String.mk (s.data.map charLower)

/-- Does the second list start with the first one? -/
def listStartsWith : List Char → List Char → Bool
  | [], _ => true
  | _ :: _, [] => false
  | a :: ps, b :: hs => a == b && listStartsWith ps hs

/-- Does the second list contain the first as a contiguous sublist? -/
def listHasSub (nee : List Char) : List Char → Bool
  | [] => nee.isEmpty
  | b :: t => listStartsWith nee (b :: t) || listHasSub nee t

/-- JS `hay.includes(nee)`. -/
def strIncludes (hay nee : String) : Bool := listHasSub nee.data hay.data

/-! ## Remote opportunity records

The fields selected by the SOQL query in
`SalesforceService.getAllOpportunities` (src/server.js lines 48-56).
Timestamps that participate in date arithmetic are `Nat` milliseconds;
fields the claims never compute with are kept as optional strings/ints.
-/

/-- A raw Salesforce opportunity record as fetched by
`getAllOpportunities`.  `none` models an absent (`undefined`/`null`)
field. -/
structure RawOpp where
  id : String
  name : Option String
  stageName : Option String
  amount : Option Int
  closeDate : Option String
  createdDate : Option String
  lastModifiedDate : Nat
  accountId : Option String
  accountName : Option String
  accountPhone : Option String
  personMobilePhone : Option String
  phoneC : Option String
  ownerName : Option String
  nextStep : Option String
  description : Option String
deriving DecidableEq

/-- The per-record exclusion predicate of `getAllOpportunities`
(src/server.js lines 62-77): drop records whose name contains
case-insensitive "upgrade" or "design", then drop records whose owner name
contains case-insensitive "roxy"; keep everything else.  `opp.Name || ''`
and `opp.Owner?.Name || ''` are modelled by `Option.getD ""`. -/
def keepOpportunity (opp : RawOpp) : Bool :=
  let name := strLower (opp.name.getD "")
  let ownerName := strLower (opp.ownerName.getD "")
  if strIncludes name "upgrade" || strIncludes name "design" then false
  else if strIncludes ownerName "roxy" then false
  else true

/-- `result.records.filter(...)` of `getAllOpportunities`. -/
def filterOpportunities (records : List RawOpp) : List RawOpp :=
  records.filter keepOpportunity

/-! ## Activity merge engine

`SalesforceService.addLastContactDates` (src/server.js lines 89-269).  The
function builds four key-to-timestamp maps (task/event by opportunity,
task/event by account) by accumulating per-batch query results, then
attaches to each opportunity the maximum present signal, falling back to
`LastModifiedDate`.

The four per-batch remote query outcomes are environmental inputs: each is
either `some records` (the query succeeded) or `none` (the query errored;
the source's promise wrapper resolves it to `{ records: [] }` instead of
rejecting, lines 152-209).  The key-to-timestamp maps are association
lists consed at the front, so `lookup` returns the most recently `set`
binding, like a JS `Map`.
-/

/-- The four accumulated key-to-timestamp maps (`oppTaskDates`,
`oppEventDates`, `accountTaskDates`, `accountEventDates`). -/
structure ActivityMaps where
  oppTaskDates : List (String × Nat)
  oppEventDates : List (String × Nat)
  accountTaskDates : List (String × Nat)
  accountEventDates : List (String × Nat)
deriving DecidableEq

/-- The `allDates` collection of the source (lines 234-242): the four
lookups for one opportunity with absent entries removed.  Account-side
lookups require the opportunity to carry an account id. -/
def allDates (maps : ActivityMaps) (opp : RawOpp) : List Nat :=
  [ maps.oppTaskDates.lookup opp.id
  , maps.oppEventDates.lookup opp.id
  , opp.accountId.bind (fun a => maps.accountTaskDates.lookup a)
  , opp.accountId.bind (fun a => maps.accountEventDates.lookup a)
  ].filterMap id

/-- The per-opportunity merge (lines 244-253): maximum of the present
signals, else `LastModifiedDate`. -/
def computeLastContact (maps : ActivityMaps) (opp : RawOpp) : Nat :=
  match allDates maps opp with
  | [] => opp.lastModifiedDate
  | d :: ds => ds.foldl max d

/-- An opportunity with its attached `LastContactDate` (the source spreads
`{ ...opp, LastContactDate }`). -/
structure ContactOpp where
  opp : RawOpp
  lastContactDate : Nat
deriving DecidableEq

/-- Attach the merged last-contact date to one opportunity. -/
def withLastContact (maps : ActivityMaps) (o : RawOpp) : ContactOpp :=
  ⟨o, computeLastContact maps o⟩

/-- The total-degradation fallback of the catch block (lines 261-268):
`LastContactDate = LastModifiedDate`. -/
def fallbackContact (o : RawOpp) : ContactOpp :=
  ⟨o, o.lastModifiedDate⟩

/-- The outcomes of the four sub-queries of one batch.  `none` means the
query failed (the source logs and resolves `{ records: [] }`); `some rs`
means it returned the grouped `(WhatId, MAX(CreatedDate))` rows `rs`. -/
structure BatchQueryResults where
  oppTasks : Option (List (String × Nat))
  oppEvents : Option (List (String × Nat))
  accountTasks : Option (List (String × Nat))
  accountEvents : Option (List (String × Nat))
deriving DecidableEq

/-- The promise wrapper around each sub-query: a failed query contributes
an empty record list (`resolve({ records: [] })`). -/
def recordsOrEmpty (r : Option (List (String × Nat))) : List (String × Nat) :=
  r.getD []

/-- Fold one query's records into a map with `Map.set` semantics: consing
at the front makes `lookup` return the latest binding. -/
def setAllPairs (m : List (String × Nat)) (recs : List (String × Nat)) :
    List (String × Nat) :=
  recs.foldl (fun acc kv => kv :: acc) m

/-- The initial empty maps (`new Map()` four times). -/
def emptyMaps : ActivityMaps := ⟨[], [], [], []⟩

/-- Accumulate one batch's four query results into the maps
(lines 211-227). -/
def accumBatch (maps : ActivityMaps) (b : BatchQueryResults) : ActivityMaps :=
  { oppTaskDates := setAllPairs maps.oppTaskDates (recordsOrEmpty b.oppTasks)
    oppEventDates := setAllPairs maps.oppEventDates (recordsOrEmpty b.oppEvents)
    accountTaskDates :=
      setAllPairs maps.accountTaskDates (recordsOrEmpty b.accountTasks)
    accountEventDates :=
      setAllPairs maps.accountEventDates (recordsOrEmpty b.accountEvents) }

/-- The sequential batch loop (lines 103-227): batches are processed in
order, results accumulated across all batches. -/
def accumMaps (batches : List BatchQueryResults) : ActivityMaps :=
  batches.foldl accumBatch emptyMaps

/-- Which of the four sub-queries of a batch is being singled out. -/
inductive QueryKind where
  | oppTask
  | oppEvent
  | accountTask
  | accountEvent
deriving DecidableEq

/-- Replace the outcome of one designated sub-query of a batch. -/
def setQueryResult (k : QueryKind) (r : Option (List (String × Nat)))
    (b : BatchQueryResults) : BatchQueryResults :=
  match k with
  | .oppTask => { b with oppTasks := r }
  | .oppEvent => { b with oppEvents := r }
  | .accountTask => { b with accountTasks := r }
  | .accountEvent => { b with accountEvents := r }

/-- `SalesforceService.addLastContactDates` as a whole.  The environment
`env` is the outcome of the try block's remote querying: `.ok batches`
gives the per-batch sub-query results, `.error e` models the try block
throwing, in which case the catch returns every opportunity with
`LastContactDate = LastModifiedDate` instead of rejecting.  An empty input
is returned unchanged before any querying (lines 90-92). -/
def addLastContactDates (env : Except String (List BatchQueryResults))
    (opportunities : List RawOpp) : Except String (List ContactOpp) :=
  if opportunities.isEmpty then .ok []
  else
    match env with
    | .ok batches => .ok (opportunities.map (withLastContact (accumMaps batches)))
    | .error _ => .ok (opportunities.map fallbackContact)

/-! ## Follow-up detection

`DatabaseService.checkNeedsFollowUp` (src/server.js lines 928-946) and
`DatabaseService.getFollowUpReason` (lines 948-956).  A stored row's
`follow_up_date` and `next_step` are optional strings (`none` covers SQL
NULL and the falsy empty string, which the source skips); `parseDate`
models `new Date(s)`, returning `none` when the string does not parse
(`Invalid Date`, whose `NaN` timestamp fails every `<=` comparison, which
is exactly how the source treats it). -/

/-- The relevant columns of a stored opportunity row for follow-up
detection. -/
structure FollowRow where
  follow_up_date : Option String
  next_step : Option String
deriving DecidableEq

/-- One truthiness-plus-date check of the source:
`value && new Date(value) <= new Date()`. -/
def dateDue (parseDate : String → Option Int) (now : Int) : Option String → Bool
  | some s =>
    match parseDate s with
    | some d => decide (d ≤ now)
    | none => false
  | none => false

/-- `DatabaseService.checkNeedsFollowUp`: the follow-up date check first,
then the next-step check, else false. -/
def checkNeedsFollowUp (parseDate : String → Option Int) (now : Int)
    (opp : FollowRow) : Bool :=
  if dateDue parseDate now opp.follow_up_date then true
  else if dateDue parseDate now opp.next_step then true
  else false

/-- `DatabaseService.getFollowUpReason`: same precedence, producing the
reason string. -/
def getFollowUpReason (parseDate : String → Option Int) (now : Int)
    (opp : FollowRow) : Option String :=
  if dateDue parseDate now opp.follow_up_date then
    some "Custom follow-up date reached"
  else if dateDue parseDate now opp.next_step then
    some "Next step date passed"
  else none

/-! ## ISO week computation and the week filter

`DatabaseService.getWeekDateRange` (src/server.js lines 958-979) and the
`created_date` range condition of `getOpportunities` (lines 872-876).
Calendar days are counted as days since 1970-01-01 (a Thursday); instants
are milliseconds since the epoch.  The JS `Date(year, 0, day)` constructor
and `setDate` arithmetic normalize day offsets, which is plain day
arithmetic under the UTC-timezone convention. -/

/-- Days since 1970-01-01 of the civil date `y-m-d` (standard civil
calendar conversion; `/` on `Int` is floor division here, which is what
the JS `Date` millisecond arithmetic computes). -/
def daysFromCivil (y m d : Int) : Int :=
  let yAdj := if m ≤ 2 then y - 1 else y
  let era := yAdj / 400
  let yoe := yAdj - era * 400
  let mp := if 2 < m then m - 3 else m + 9
  let doy := (153 * mp + 2) / 5 + d - 1
  let doe := yoe * 365 + yoe / 4 - yoe / 100 + doy
  era * 146097 + doe - 719468

/-- Milliseconds per day. -/
def msPerDay : Int := 86400000

/-- `DatabaseService.getWeekDateRange` on an already-parsed year and week
number: `simple = new Date(year, 0, 1 + (week - 1) * 7)`; `getDay` is
`(days + 4) % 7` (the epoch day is a Thursday); the Monday `ISOweekStart`
is derived from it, and the returned range is `(weekStart, weekStart + 6)`
in whole days, each at 00:00 local time. -/
def getWeekDateRange (yearInt weekNum : Int) : Int × Int :=
  let simple := daysFromCivil yearInt 1 1 + 7 * (weekNum - 1)
  let dow := (simple + 4) % 7
  let weekStart := if dow ≤ 4 then simple - dow + 1 else simple + 8 - dow
  (weekStart, weekStart + 6)

/-- Numeric value of an ASCII digit. -/
def digitVal (c : Char) : Option Nat :=
  if '0' ≤ c && c ≤ '9' then some (c.toNat - '0'.toNat) else none

/-- Accumulator loop of decimal parsing. -/
def parseNatCharsAux : List Char → Nat → Option Nat
  | [], acc => some acc
  | c :: cs, acc =>
    match digitVal c with
    | some d => parseNatCharsAux cs (acc * 10 + d)
    | none => none

/-- JS `parseInt` restricted to all-digit strings (the well-formed week
strings the claim quantifies over). -/
def parseNatChars (cs : List Char) : Option Nat :=
  if cs.isEmpty then none else parseNatCharsAux cs 0

/-- Split a character list at the first occurrence of `-W`
(JS `weekString.split('-W')` on a well-formed week string). -/
def splitAtDashW : List Char → Option (List Char × List Char)
  | [] => none
  | c :: cs =>
    if listStartsWith ['-', 'W'] (c :: cs) then some ([], cs.drop 1)
    else
      match splitAtDashW cs with
      | some (pre, post) => some (c :: pre, post)
      | none => none

/-- `getWeekDateRange` on the raw week string, e.g. "2024-W05". -/
def getWeekDateRangeOfString (weekString : String) : Option (Int × Int) :=
  match splitAtDashW weekString.data with
  | some (ys, ws) =>
    match parseNatChars ys, parseNatChars ws with
    | some y, some w => some (getWeekDateRange (Int.ofNat y) (Int.ofNat w))
    | _, _ => none
  | none => none

/-- The columns of a stored opportunity row that the `getOpportunities`
WHERE clause reads.  `created_date` is the stored creation instant in ms
(the SQL compares ISO-8601 strings, which order like their instants). -/
structure StoredOpp where
  created_date : Int
  is_active : Bool
  owner_name : String
  name : String
deriving DecidableEq

/-- The filters of `getOpportunities` relevant to row selection: the
owner-exclusion list, the upgrade/design name exclusion, and the parsed
week filter. -/
structure OppFilters where
  excludeOwners : Option (List String)
  excludeUpgradeDesign : Bool
  week : Option (Int × Int)
deriving DecidableEq

/-- The `LOWER(owner_name) NOT LIKE LOWER('%o%')` conjuncts added per
excluded owner (lines 857-861). -/
def ownerFilterPass (f : OppFilters) (row : StoredOpp) : Bool :=
  match f.excludeOwners with
  | some owners =>
    owners.all (fun o => !(strIncludes (strLower row.owner_name) (strLower o)))
  | none => true

/-- The `LOWER(name) NOT LIKE '%upgrade%' AND LOWER(name) NOT LIKE
'%design%'` condition (lines 868-870). -/
def nameFilterPass (f : OppFilters) (row : StoredOpp) : Bool :=
  !f.excludeUpgradeDesign
    || (!(strIncludes (strLower row.name) "upgrade")
        && !(strIncludes (strLower row.name) "design"))

/-- The `created_date >= startDate.toISOString() AND created_date <=
endDate.toISOString()` condition (lines 872-876): both bounds are the
midnight instants of the computed start and end days. -/
def weekFilterPass (wk : Option (Int × Int)) (createdMs : Int) : Bool :=
  match wk with
  | some (y, w) =>
    let r := getWeekDateRange y w
    decide (r.1 * msPerDay ≤ createdMs) && decide (createdMs ≤ r.2 * msPerDay)
  | none => true

/-- The full WHERE clause of `getOpportunities` (`is_active = 1` plus the
three optional filters, AND-combined).  The trailing ORDER BY/LIMIT of the
query affects presentation, not this row predicate. -/
def rowSelected (f : OppFilters) (row : StoredOpp) : Bool :=
  row.is_active && ownerFilterPass f row && nameFilterPass f row
    && weekFilterPass f.week row.created_date

/-- The claim's Monday-through-Sunday span, inclusive of both endpoint
days: from Monday 00:00:00 up to but excluding the following Monday
00:00:00. -/
def inMondaySundaySpan (range : Int × Int) (createdMs : Int) : Bool :=
  decide (range.1 * msPerDay ≤ createdMs)
    && decide (createdMs < (range.2 + 1) * msPerDay)

/-! ## The opportunity upsert

`DatabaseService.upsertOpportunity` (src/server.js lines 769-814) binds 19
parameters plus the literals `1` (for `is_active`) and `CURRENT_TIMESTAMP`
(for `updated_at`) into

`INSERT OR REPLACE INTO opportunities (id, sf_id, name, stage, amount,
close_date, created_date, last_modified, last_contact_date, account_name,
account_phone, account_person_mobile_phone, opportunity_phone, owner_name,
next_step, description, customer_preferences, location, last_sync,
is_active, updated_at) VALUES (...)`.

On SQLite this runs as written: `INSERT OR REPLACE` deletes every row that
conflicts on a uniqueness constraint (`id` is the primary key, `sf_id` is
UNIQUE) and inserts a fresh row in which every column that is not named in
the column list takes its declared default (`priority_level` 1,
`engagement_score` 0, `has_engagement` 0, `created_at`
CURRENT_TIMESTAMP, the rest NULL).

On PostgreSQL, `convertSqlToPostgres` (lines 647-676) rewrites it to
`INSERT ... ON CONFLICT (sf_id) DO UPDATE SET` naming exactly the
synchronized columns (name, stage, amount, close_date, created_date,
last_modified, last_contact_date, account_name, account_phone,
account_person_mobile_phone, opportunity_phone, owner_name, next_step,
description, customer_preferences, location, last_sync, is_active) plus
`updated_at = NOW()`, leaving every other column of the existing row
unchanged. -/

/-- An SQL value. -/
inductive SVal where
  | null
  | int (n : Int)
  | text (s : String)
deriving DecidableEq

/-- A full row of the `opportunities` table (column set of
`createTables`, src/server.js lines 404-436 and 535-567). -/
structure OppRow where
  id : String
  sf_id : String
  name : SVal
  stage : SVal
  amount : SVal
  close_date : SVal
  created_date : SVal
  last_modified : SVal
  last_contact_date : SVal
  account_name : SVal
  account_phone : SVal
  account_person_mobile_phone : SVal
  opportunity_phone : SVal
  owner_name : SVal
  next_step : SVal
  description : SVal
  priority_level : SVal
  custom_notes : SVal
  follow_up_date : SVal
  customer_preferences : SVal
  location : SVal
  last_sync : SVal
  is_active : SVal
  engagement_score : SVal
  engagement_analysis : SVal
  has_engagement : SVal
  engagement_analyzed_at : SVal
  created_at : SVal
  updated_at : SVal
deriving DecidableEq

/-- The 19 bound parameters of `upsertOpportunity`, in the order of the
column list (the source builds them from the Salesforce record and
`parseOpportunityName`; their provenance does not matter for the upsert
semantics, so they are taken as given here). -/
structure UpsertParams where
  id : String
  sf_id : String
  name : SVal
  stage : SVal
  amount : SVal
  close_date : SVal
  created_date : SVal
  last_modified : SVal
  last_contact_date : SVal
  account_name : SVal
  account_phone : SVal
  account_person_mobile_phone : SVal
  opportunity_phone : SVal
  owner_name : SVal
  next_step : SVal
  description : SVal
  customer_preferences : SVal
  location : SVal
  last_sync : SVal
deriving DecidableEq

/-- The freshly inserted row: named columns from the parameters,
`is_active = 1` and `updated_at = CURRENT_TIMESTAMP` from the statement's
literals, every unnamed column at its declared default. -/
def newOppRow (p : UpsertParams) (now : String) : OppRow :=
  { id := p.id
    sf_id := p.sf_id
    name := p.name
    stage := p.stage
    amount := p.amount
    close_date := p.close_date
    created_date := p.created_date
    last_modified := p.last_modified
    last_contact_date := p.last_contact_date
    account_name := p.account_name
    account_phone := p.account_phone
    account_person_mobile_phone := p.account_person_mobile_phone
    opportunity_phone := p.opportunity_phone
    owner_name := p.owner_name
    next_step := p.next_step
    description := p.description
    priority_level := SVal.int 1
    custom_notes := SVal.null
    follow_up_date := SVal.null
    customer_preferences := p.customer_preferences
    location := p.location
    last_sync := p.last_sync
    is_active := SVal.int 1
    engagement_score := SVal.int 0
    engagement_analysis := SVal.null
    has_engagement := SVal.int 0
    engagement_analyzed_at := SVal.null
    created_at := SVal.text now
    updated_at := SVal.text now }

/-- `upsertOpportunity` on the SQLite backend: `INSERT OR REPLACE` deletes
every row conflicting on `id` (primary key) or `sf_id` (UNIQUE) and
inserts the fresh row. -/
def upsertOpportunitySqlite (tbl : List OppRow) (p : UpsertParams)
    (now : String) : List OppRow :=
  tbl.filter (fun r => decide (r.id ≠ p.id) && decide (r.sf_id ≠ p.sf_id))
    ++ [newOppRow p now]

/-- The `DO UPDATE SET` clause produced by `convertSqlToPostgres`: exactly
the synchronized columns are overwritten from the excluded row, plus
`updated_at = NOW()`; `priority_level`, `custom_notes`, `follow_up_date`,
the engagement columns and `created_at` keep their stored values. -/
def pgUpdateRow (r : OppRow) (p : UpsertParams) (now : String) : OppRow :=
  { r with
    name := p.name
    stage := p.stage
    amount := p.amount
    close_date := p.close_date
    created_date := p.created_date
    last_modified := p.last_modified
    last_contact_date := p.last_contact_date
    account_name := p.account_name
    account_phone := p.account_phone
    account_person_mobile_phone := p.account_person_mobile_phone
    opportunity_phone := p.opportunity_phone
    owner_name := p.owner_name
    next_step := p.next_step
    description := p.description
    customer_preferences := p.customer_preferences
    location := p.location
    last_sync := p.last_sync
    is_active := SVal.int 1
    updated_at := SVal.text now }

/-- `upsertOpportunity` on the PostgreSQL backend: on an `sf_id` conflict
the existing row is updated in place by the `DO UPDATE SET` clause,
otherwise the fresh row is inserted. -/
def upsertOpportunityPg (tbl : List OppRow) (p : UpsertParams)
    (now : String) : List OppRow :=
  if tbl.any (fun r => decide (r.sf_id = p.sf_id)) then
    tbl.map (fun r => if r.sf_id = p.sf_id then pgUpdateRow r p now else r)
  else
    tbl ++ [newOppRow p now]

/-! ## Sync orchestrator

`DatabaseService.syncFromSalesforce` (src/server.js lines 743-767) and
`DatabaseService.logSync` (lines 996-999).  The remote fetch outcome and
each per-opportunity upsert outcome are environmental inputs. -/

/-- A `sync_log` row. -/
structure SyncLogEntry where
  sync_type : String
  sync_status : String
  records_synced : Nat
  error_message : Option String
  sync_timestamp : String
deriving DecidableEq

/-- `DatabaseService.logSync`: append one row to the append-only
`sync_log` table. -/
def logSync (log : List SyncLogEntry) (syncType status : String)
    (recordsCount : Nat) (errorMessage : Option String) (now : String) :
    List SyncLogEntry :=
  log ++ [⟨syncType, status, recordsCount, errorMessage, now⟩]

/-- The `{ success: true, count }` summary returned on success. -/
structure SyncResult where
  success : Bool
  count : Nat
deriving DecidableEq

/-- The sequential upsert loop: each opportunity is upserted in order and
counted; the first upsert rejection aborts the loop with that error. -/
def runUpserts (upsert : ContactOpp → Except String Unit) :
    List ContactOpp → Except String Nat
  | [] => .ok 0
  | o :: os =>
    match upsert o with
    | .error e => .error e
    | .ok _ =>
      match runUpserts upsert os with
      | .error e => .error e
      | .ok n => .ok (n + 1)

/-- `DatabaseService.syncFromSalesforce`: fetch, upsert each record, log
the outcome.  On any throw the catch logs a failed entry with count 0 and
the error message and re-throws; on success it logs a success entry with
the synced count and returns `{ success: true, count }`. -/
def syncFromSalesforce (fetchRes : Except String (List ContactOpp))
    (upsert : ContactOpp → Except String Unit) (log : List SyncLogEntry)
    (now : String) : Except String SyncResult × List SyncLogEntry :=
  match fetchRes with
  | .error e => (.error e, logSync log "full_sync" "error" 0 (some e) now)
  | .ok opps =>
    match runUpserts upsert opps with
    | .error e => (.error e, logSync log "full_sync" "error" 0 (some e) now)
    | .ok n => (.ok ⟨true, n⟩, logSync log "full_sync" "success" n none now)

/-! ## User preferences

`DatabaseService.saveUserPreferences` (src/server.js lines 1006-1053) and
`DatabaseService.saveMultipleUserPreferences` (lines 1065-1121).  The
bound parameter values are computed from the caller-supplied preference
object with JS `||` fallbacks, so any falsy field falls back to the column
default.  JS values are modelled with explicit truthiness. -/

/-- A JavaScript value as it reaches the parameter builder. -/
inductive JVal where
  | undef
  | jnull
  | num (n : Int)
  | str (s : String)
  | jbool (b : Bool)
deriving DecidableEq

/-- JS truthiness (`NaN` is not representable here; no claim needs it). -/
def JVal.truthy : JVal → Bool
  | .undef => false
  | .jnull => false
  | .num n => decide (n ≠ 0)
  | .str s => decide (s ≠ "")
  | .jbool b => b

/-- JS `a || b`. -/
def JVal.orFallback (v dflt : JVal) : JVal :=
  if v.truthy then v else dflt

/-- The caller-supplied preference object (any field may be absent or
falsy). -/
structure PrefInput where
  opportunity_id : JVal
  priority_color : JVal
  intent_level : JVal
  five_yard_line : JVal
  follow_up_date : JVal
  position_x : JVal
  position_y : JVal
deriving DecidableEq

/-- The bound parameter values of one preference write. -/
structure BoundPref where
  user_id : String
  opportunity_id : JVal
  priority_color : JVal
  intent_level : JVal
  five_yard_line : JVal
  follow_up_date : JVal
  position_x : JVal
  position_y : JVal
deriving DecidableEq

/-- The parameter construction of `saveUserPreferences` (identical in its
SQLite and PostgreSQL branches, lines 1024-1033 and 1040-1049):
`priority_color || 'gray'`, `intent_level || 5`,
`five_yard_line ? 1 : 0`, `follow_up_date || null`,
`position_x || null`, `position_y || null`. -/
def saveUserPreferencesBound (userId : String) (preferences : PrefInput) :
    BoundPref :=
  { user_id := userId
    opportunity_id := preferences.opportunity_id
    priority_color := preferences.priority_color.orFallback (.str "gray")
    intent_level := preferences.intent_level.orFallback (.num 5)
    five_yard_line := if preferences.five_yard_line.truthy then .num 1 else .num 0
    follow_up_date := preferences.follow_up_date.orFallback .jnull
    position_x := preferences.position_x.orFallback .jnull
    position_y := preferences.position_y.orFallback .jnull }

/-- The parameter construction of the prepared statement inside
`saveMultipleUserPreferences`' SQLite branch (lines 1093-1102), written
out separately because the source repeats it. -/
def bulkStmtBound (userId : String) (pref : PrefInput) : BoundPref :=
  { user_id := userId
    opportunity_id := pref.opportunity_id
    priority_color := pref.priority_color.orFallback (.str "gray")
    intent_level := pref.intent_level.orFallback (.num 5)
    five_yard_line := if pref.five_yard_line.truthy then .num 1 else .num 0
    follow_up_date := pref.follow_up_date.orFallback .jnull
    position_x := pref.position_x.orFallback .jnull
    position_y := pref.position_y.orFallback .jnull }

/-- A stored `user_preferences` row (the autoincrement id and `created_at`
are irrelevant to the claims and omitted; `updated_at` is set by the
statement). -/
structure PrefRow where
  user_id : String
  opportunity_id : JVal
  priority_color : JVal
  intent_level : JVal
  five_yard_line : JVal
  follow_up_date : JVal
  position_x : JVal
  position_y : JVal
  updated_at : String
deriving DecidableEq

/-- Does a stored row collide with the write on the
`UNIQUE(user_id, opportunity_id)` constraint? -/
def prefKeyMatch (r : PrefRow) (b : BoundPref) : Bool :=
  decide (r.user_id = b.user_id) && decide (r.opportunity_id = b.opportunity_id)

/-- The row produced by one preference write. -/
def prefRowOf (b : BoundPref) (now : String) : PrefRow :=
  ⟨b.user_id, b.opportunity_id, b.priority_color, b.intent_level,
    b.five_yard_line, b.follow_up_date, b.position_x, b.position_y, now⟩

/-- One `INSERT OR REPLACE INTO user_preferences` on SQLite: rows
conflicting on `(user_id, opportunity_id)` are deleted, the fresh row
inserted. -/
def applyPrefSqlite (store : List PrefRow) (b : BoundPref) (now : String) :
    List PrefRow :=
  store.filter (fun r => !(prefKeyMatch r b)) ++ [prefRowOf b now]

/-- One `INSERT ... ON CONFLICT (user_id, opportunity_id) DO UPDATE` on
PostgreSQL: the colliding row is overwritten in place, otherwise the fresh
row is appended. -/
def applyPrefPg (store : List PrefRow) (b : BoundPref) (now : String) :
    List PrefRow :=
  if store.any (fun r => prefKeyMatch r b) then
    store.map (fun r => if prefKeyMatch r b then prefRowOf b now else r)
  else
    store ++ [prefRowOf b now]

/-- The PostgreSQL bulk loop (lines 1068-1078): each record is written via
`saveUserPreferences`; the write outcome flag is environmental (`true` =
the INSERT succeeded).  The first failure stops the loop. -/
def pgBulkRun (userId now : String) :
    List PrefRow → List (PrefInput × Bool) → Option (List PrefRow)
  | s, [] => some s
  | s, (p, ok) :: rest =>
    if ok then
      pgBulkRun userId now (applyPrefPg s (saveUserPreferencesBound userId p) now) rest
    else none

/-- `saveMultipleUserPreferences` on PostgreSQL: `BEGIN`, write each
record, `COMMIT`; any failure triggers `ROLLBACK`, leaving the store as it
was, and re-throws.  On success the source resolves the batch length. -/
def saveMultipleUserPreferencesPg (store : List PrefRow) (userId : String)
    (prefs : List (PrefInput × Bool)) (now : String) :
    Except String Nat × List PrefRow :=
  match pgBulkRun userId now store prefs with
  | some finalStore => (.ok prefs.length, finalStore)
  | none => (.error "insert failed", store)

/-- One element of a SQLite bulk batch.  `entry p dbOk` is a readable
record whose prepared-statement execution succeeds iff `dbOk`;
`badElement` is an element whose property access (`pref.opportunity_id`)
throws synchronously inside the `forEach` (e.g. a null element). -/
inductive BulkItem where
  | entry (pref : PrefInput) (dbOk : Bool)
  | badElement
deriving DecidableEq

/-- Is the element a readable record? -/
def BulkItem.isEntry : BulkItem → Bool
  | .entry _ _ => true
  | .badElement => false

/-- Effect of one queued `stmt.run(...)` of the SQLite bulk branch.  The
source passes no callback to `stmt.run`, so a database-level failure of
one insert is never observed by the surrounding code: the failed insert
simply contributes nothing and the queue continues. -/
def sqliteBulkStep (userId now : String) (s : List PrefRow) :
    BulkItem → List PrefRow
  | .entry p true => applyPrefSqlite s (bulkStmtBound userId p) now
  | .entry _ false => s
  | .badElement => s

/-- `saveMultipleUserPreferences` on SQLite (lines 1081-1119): inside
`serialize`, `BEGIN TRANSACTION`, one callback-less `stmt.run` per record,
then `COMMIT`.  The `try/catch` around the `forEach` only catches
synchronous JS exceptions (a `badElement`), in which case `ROLLBACK` is
issued and the promise rejects with the store unchanged.  When every
element is readable, `COMMIT` runs unconditionally and every insert that
succeeded at the database level persists — database-level failures do not
reach the catch. -/
def saveMultipleUserPreferencesSqlite (store : List PrefRow) (userId : String)
    (items : List BulkItem) (now : String) :
    Except String Nat × List PrefRow :=
  if items.all BulkItem.isEntry then
    (.ok items.length, items.foldl (sqliteBulkStep userId now) store)
  else
    (.error "TypeError", store)

/-! ## Concrete inputs for witnesses and counterexamples -/

/-- A blank record for building concrete witnesses. -/
def blankOpp : RawOpp :=
  { id := "006X", name := none, stageName := none, amount := none
    closeDate := none, createdDate := none, lastModifiedDate := 0
    accountId := none, accountName := none, accountPhone := none
    personMobilePhone := none, phoneC := none, ownerName := none
    nextStep := none, description := none }

/-- Concrete record with a given id, name and owner. -/
def mkNamedOpp (i n o : String) : RawOpp :=
  { blankOpp with id := i, name := some n, ownerName := some o }

/-- The spec's first exclusion example: a name containing "Upgrade". -/
def c8UpgradeRec : RawOpp := mkNamedOpp "006A" "Smith Upgrade Project" "Alex Doe"

/-- The spec's second exclusion example: owned by "Roxy Jones". -/
def c8RoxyRec : RawOpp := mkNamedOpp "006B" "Jones - TX, metal roof" "Roxy Jones"

/-- A record hitting neither exclusion rule. -/
def c8KeptRec : RawOpp := mkNamedOpp "006C" "Jones - TX, metal roof" "Alex Doe"

/-- The spec's exclusion-policy examples as a concrete fetched batch. -/
def c8Records : List RawOpp := [c8UpgradeRec, c8RoxyRec, c8KeptRec]

/-- Concrete date parser for the C7 witness: "yday" parses to 1, "tmrw" to
9, everything else is unparseable. -/
def c7ParseDate : String → Option Int :=
  fun s => if s = "yday" then some 1 else if s = "tmrw" then some 9 else none

/-- A row with an overdue explicit follow-up date and a future next-step
date (the spec's own example: follow-up yesterday, next step tomorrow). -/
def c7Opp : FollowRow := { follow_up_date := some "yday", next_step := some "tmrw" }

/-- Concrete opportunity for the merge witnesses: it has a task signal and
an account-event signal. -/
def c2Opp : RawOpp :=
  { blankOpp with id := "006A", accountId := some "001B", lastModifiedDate := 5 }

/-- Concrete maps: a task on the opportunity at 10, an event on the parent
account at 30. -/
def c2Maps : ActivityMaps := ⟨[("006A", 10)], [], [], [("001B", 30)]⟩

/-- Concrete non-empty input list for the C4 witness. -/
def c4Opps : List RawOpp := [c2Opp]

/-- Always-succeeding upsert environment for the C9 witness. -/
def c9Upsert : ContactOpp → Except String Unit := fun _ => .ok ()

/-- Concrete fetched list for the C9 witness. -/
def c9Opps : List ContactOpp := [⟨c2Opp, 30⟩]

/-- The view filters applied by the `/api/opportunities` route: exclude
owners Roxy and Rachel, exclude upgrade/design names, week 2024-W05. -/
def c6Filters : OppFilters :=
  { excludeOwners := some ["Roxy", "Rachel"]
    excludeUpgradeDesign := true
    week := some (2024, 5) }

/-- A stored active opportunity created on Sunday 2024-02-04 at 12:00 —
the last day of ISO week 2024-W05 — passing every non-week filter. -/
def c6SundayRow : StoredOpp :=
  { created_date := daysFromCivil 2024 2 4 * msPerDay + 43200000
    is_active := true
    owner_name := "Alex Doe"
    name := "Jones - TX, metal roof" }

/-- A stored active opportunity created on Tuesday 2024-01-30 at 12:00,
inside week 2024-W05. -/
def c6MidweekRow : StoredOpp :=
  { created_date := daysFromCivil 2024 1 30 * msPerDay + 43200000
    is_active := true
    owner_name := "Alex Doe"
    name := "Jones - TX, metal roof" }

/-- Concrete bound parameters of one remote opportunity for the upsert
scenario. -/
def c1Params : UpsertParams :=
  { id := "006A"
    sf_id := "006A"
    name := SVal.text "Jones - TX, metal roof"
    stage := SVal.text "Qualification"
    amount := SVal.int 25000
    close_date := SVal.text "2024-03-01"
    created_date := SVal.text "2024-01-30T10:00:00.000Z"
    last_modified := SVal.text "2024-02-01T10:00:00.000Z"
    last_contact_date := SVal.text "2024-02-02T09:00:00.000Z"
    account_name := SVal.text "Jones"
    account_phone := SVal.null
    account_person_mobile_phone := SVal.null
    opportunity_phone := SVal.null
    owner_name := SVal.text "Alex Doe"
    next_step := SVal.null
    description := SVal.null
    customer_preferences := SVal.text "metal roof"
    location := SVal.text "TX"
    last_sync := SVal.text "2024-02-02T12:00:00.000Z" }

/-- The table after the first sync of the record (SQLite backend). -/
def c1FirstSqlite : List OppRow := upsertOpportunitySqlite [] c1Params "TS1"

/-- The table after the user annotates the row through the
`updatePriority` / `updateCustomNotes` / `setFollowUpDate` endpoints and
an engagement analysis is stored. -/
def c1Annotated : List OppRow :=
  c1FirstSqlite.map (fun r =>
    { r with
      priority_level := SVal.int 4
      custom_notes := SVal.text "call back Friday"
      follow_up_date := SVal.text "2024-02-10"
      engagement_score := SVal.int 3 })

/-- The table after re-syncing the identical remote record on SQLite. -/
def c1SecondSqlite : List OppRow := upsertOpportunitySqlite c1Annotated c1Params "TS2"

/-- The table after re-syncing the identical remote record on
PostgreSQL. -/
def c1SecondPg : List OppRow := upsertOpportunityPg c1Annotated c1Params "TS2"

/-- A well-formed preference record for a given opportunity id. -/
def c3Pref (oid : String) : PrefInput :=
  { opportunity_id := JVal.str oid
    priority_color := JVal.str "red"
    intent_level := JVal.num 7
    five_yard_line := JVal.jbool true
    follow_up_date := JVal.jnull
    position_x := JVal.num 10
    position_y := JVal.num 20 }

/-- A SQLite bulk batch of five records whose third insert fails at the
database level. -/
def c3Items : List BulkItem :=
  [ BulkItem.entry (c3Pref "006A") true
  , BulkItem.entry (c3Pref "006B") true
  , BulkItem.entry (c3Pref "006C") false
  , BulkItem.entry (c3Pref "006D") true
  , BulkItem.entry (c3Pref "006E") true ]

/-- The same batch for the PostgreSQL branch. -/
def c3PgPrefs : List (PrefInput × Bool) :=
  [ (c3Pref "006A", true)
  , (c3Pref "006B", true)
  , (c3Pref "006C", false)
  , (c3Pref "006D", true)
  , (c3Pref "006E", true) ]

/-- A preference object whose position coordinates and intent level are 0
and whose priority color is the empty string (all falsy). -/
def c10Pref : PrefInput :=
  { opportunity_id := JVal.str "006A"
    priority_color := JVal.str ""
    intent_level := JVal.num 0
    five_yard_line := JVal.undef
    follow_up_date := JVal.undef
    position_x := JVal.num 0
    position_y := JVal.num 0 }

end SalesforceDashboard

namespace SalesforceDashboard

/-! ## Theorems -/

/-- `dateDue` holds exactly when the field is present, parses, and is at or
before `now`. -/
theorem dateDue_iff (parseDate : String → Option Int) (now : Int)
    (o : Option String) :
    dateDue parseDate now o = true
      ↔ ∃ s d, o = some s ∧ parseDate s = some d ∧ d ≤ now := by
  cases o with
  | none => simp [dateDue]
  | some s =>
    cases h : parseDate s with
    | none => simp [dateDue, h]
    | some d => simp [dateDue, h]

/-- C7: for every stored opportunity row, the derived `needsFollowUp` and
`followUpReason` follow this precedence: an explicit follow-up date at or
before the current date gives `true` with reason "Custom follow-up date
reached" (whatever the next-step field holds); otherwise a next-step value
parsing to a date at or before the current date gives `true` with reason
"Next step date passed"; otherwise `needsFollowUp` is `false`. -/
theorem c7_follow_up_precedence (parseDate : String → Option Int) (now : Int)
    (opp : FollowRow) :
    ((∃ s d, opp.follow_up_date = some s ∧ parseDate s = some d ∧ d ≤ now) →
      checkNeedsFollowUp parseDate now opp = true
        ∧ getFollowUpReason parseDate now opp
            = some "Custom follow-up date reached")
    ∧ ((¬ ∃ s d, opp.follow_up_date = some s ∧ parseDate s = some d ∧ d ≤ now) →
        (∃ s d, opp.next_step = some s ∧ parseDate s = some d ∧ d ≤ now) →
      checkNeedsFollowUp parseDate now opp = true
        ∧ getFollowUpReason parseDate now opp = some "Next step date passed")
    ∧ ((¬ ∃ s d, opp.follow_up_date = some s ∧ parseDate s = some d ∧ d ≤ now) →
        (¬ ∃ s d, opp.next_step = some s ∧ parseDate s = some d ∧ d ≤ now) →
      checkNeedsFollowUp parseDate now opp = false) := by
  refine ⟨?_, ?_, ?_⟩
  · intro h
    have hd : dateDue parseDate now opp.follow_up_date = true :=
      (dateDue_iff parseDate now opp.follow_up_date).2 h
    simp [checkNeedsFollowUp, getFollowUpReason, hd]
  · intro h1 h2
    have hd1 : dateDue parseDate now opp.follow_up_date = false := by
      cases hft : dateDue parseDate now opp.follow_up_date with
      | false => rfl
      | true =>
        exact absurd ((dateDue_iff parseDate now opp.follow_up_date).1 hft) h1
    have hd2 : dateDue parseDate now opp.next_step = true :=
      (dateDue_iff parseDate now opp.next_step).2 h2
    simp [checkNeedsFollowUp, getFollowUpReason, hd1, hd2]
  · intro h1 h2
    have hd1 : dateDue parseDate now opp.follow_up_date = false := by
      cases hft : dateDue parseDate now opp.follow_up_date with
      | false => rfl
      | true =>
        exact absurd ((dateDue_iff parseDate now opp.follow_up_date).1 hft) h1
    have hd2 : dateDue parseDate now opp.next_step = false := by
      cases hft : dateDue parseDate now opp.next_step with
      | false => rfl
      | true =>
        exact absurd ((dateDue_iff parseDate now opp.next_step).1 hft) h2
    simp [checkNeedsFollowUp, hd1, hd2]

/-- Witness for C7 at a concrete row: both dates present, the explicit
follow-up date (timestamp 1 ≤ now = 5) wins over the future next step. -/
theorem c7_witness :
    checkNeedsFollowUp c7ParseDate 5 c7Opp = true
      ∧ getFollowUpReason c7ParseDate 5 c7Opp
          = some "Custom follow-up date reached" :=
  (c7_follow_up_precedence c7ParseDate 5 c7Opp).1
    ⟨"yday", 1, rfl, by decide, by decide⟩

/-- C8: a fetched record whose name contains "upgrade" or "design"
case-insensitively is excluded by `getAllOpportunities`; a record whose
owner name contains "roxy" case-insensitively is excluded regardless of
its name; every other record is retained. -/
theorem c8_exclusion_policy (records : List RawOpp) (r : RawOpp)
    (hr : r ∈ records) :
    ((strIncludes (strLower (r.name.getD "")) "upgrade" = true
        ∨ strIncludes (strLower (r.name.getD "")) "design" = true) →
      r ∉ filterOpportunities records)
    ∧ (strIncludes (strLower (r.ownerName.getD "")) "roxy" = true →
      r ∉ filterOpportunities records)
    ∧ ((strIncludes (strLower (r.name.getD "")) "upgrade" = false
        ∧ strIncludes (strLower (r.name.getD "")) "design" = false
        ∧ strIncludes (strLower (r.ownerName.getD "")) "roxy" = false) →
      r ∈ filterOpportunities records) := by
  have hkeep : ∀ o : RawOpp, keepOpportunity o = true ↔
      (strIncludes (strLower (o.name.getD "")) "upgrade" = false
        ∧ strIncludes (strLower (o.name.getD "")) "design" = false
        ∧ strIncludes (strLower (o.ownerName.getD "")) "roxy" = false) := by
    intro o
    simp only [keepOpportunity]
    rcases h1 : strIncludes (strLower (o.name.getD "")) "upgrade" <;>
      rcases h2 : strIncludes (strLower (o.name.getD "")) "design" <;>
        rcases h3 : strIncludes (strLower (o.ownerName.getD "")) "roxy" <;>
          simp
  have hmem : r ∈ filterOpportunities records
      ↔ r ∈ records ∧ keepOpportunity r = true := by
    simp [filterOpportunities, List.mem_filter]
  refine ⟨?_, ?_, ?_⟩
  · intro h hin
    have hk := (hkeep r).1 (hmem.1 hin).2
    rcases h with h | h
    · rw [hk.1] at h; exact Bool.false_ne_true h
    · rw [hk.2.1] at h; exact Bool.false_ne_true h
  · intro h hin
    have hk := (hkeep r).1 (hmem.1 hin).2
    rw [hk.2.2] at h; exact Bool.false_ne_true h
  · intro h
    exact hmem.2 ⟨hr, (hkeep r).2 h⟩

/-- Witness for C8: "Smith Upgrade Project" is dropped, the record owned by
"Roxy Jones" is dropped despite an innocuous name, and the remaining
record survives the filter. -/
theorem c8_witness :
    (c8UpgradeRec ∉ filterOpportunities c8Records)
      ∧ (c8RoxyRec ∉ filterOpportunities c8Records)
      ∧ (c8KeptRec ∈ filterOpportunities c8Records) :=
  ⟨(c8_exclusion_policy c8Records c8UpgradeRec (by decide)).1
      (Or.inl (by decide)),
    (c8_exclusion_policy c8Records c8RoxyRec (by decide)).2.1 (by decide),
    (c8_exclusion_policy c8Records c8KeptRec (by decide)).2.2 (by decide)⟩

/-- A left fold of `max` lands in the folded list (seed included) and
bounds every element of it. -/
theorem foldl_max_mem_le (ds : List Nat) (d : Nat) :
    ds.foldl max d ∈ d :: ds ∧ ∀ x ∈ d :: ds, x ≤ ds.foldl max d := by
  induction ds generalizing d with
  | nil =>
    refine ⟨List.mem_cons_self d [], ?_⟩
    intro x hx
    rcases List.mem_cons.1 hx with h1 | h1
    · exact le_of_eq h1
    · exact absurd h1 (List.not_mem_nil x)
  | cons a t ih =>
    have h := ih (max d a)
    have hmaxle : max d a ≤ t.foldl max (max d a) :=
      h.2 (max d a) (List.mem_cons_self _ _)
    constructor
    · rw [List.foldl_cons]
      rcases List.mem_cons.1 h.1 with h1 | h1
      · rw [h1]
        rcases max_choice d a with hm | hm
        · rw [hm]
          exact List.mem_cons_self d (a :: t)
        · rw [hm]
          exact List.mem_cons_of_mem d (List.mem_cons_self a t)
      · exact List.mem_cons_of_mem d (List.mem_cons_of_mem a h1)
    · intro x hx
      rw [List.foldl_cons]
      rcases List.mem_cons.1 hx with hx1 | hx1
      · subst hx1
        exact le_trans (le_max_left x a) hmaxle
      · rcases List.mem_cons.1 hx1 with hx2 | hx2
        · subst hx2
          exact le_trans (le_max_right d x) hmaxle
        · exact h.2 x (List.mem_cons_of_mem _ hx2)

/-- C2: for every opportunity, with at least one of the four activity
signals present, the merged `lastContactDate` is the maximum of the
present signals; with all four absent, it is the opportunity's
`lastModifiedDate`. -/
theorem c2_last_contact_max_of_present_signals (maps : ActivityMaps)
    (opp : RawOpp) :
    (allDates maps opp ≠ [] →
      computeLastContact maps opp ∈ allDates maps opp
        ∧ ∀ d ∈ allDates maps opp, d ≤ computeLastContact maps opp)
    ∧ (allDates maps opp = [] →
      computeLastContact maps opp = opp.lastModifiedDate) := by
  constructor
  · intro h
    rcases hAD : allDates maps opp with _ | ⟨a, ds⟩
    · exact absurd hAD h
    · have hfold := foldl_max_mem_le ds a
      have hcompute : computeLastContact maps opp = ds.foldl max a := by
        simp [computeLastContact, hAD]
      constructor
      · rw [hcompute]
        exact hfold.1
      · intro x hx
        rw [hcompute]
        exact hfold.2 x hx
  · intro h
    simp [computeLastContact, h]

/-- Witness for C2 at concrete maps: signals 10 (opportunity task) and 30
(account event) are present, and the computed date is their maximum. -/
theorem c2_witness :
    allDates c2Maps c2Opp ≠ []
      ∧ (computeLastContact c2Maps c2Opp ∈ allDates c2Maps c2Opp
          ∧ ∀ d ∈ allDates c2Maps c2Opp, d ≤ computeLastContact c2Maps c2Opp) :=
  ⟨by decide, (c2_last_contact_max_of_present_signals c2Maps c2Opp).1 (by decide)⟩

/-- C4: when the merge step throws internally, `addLastContactDates`
does not propagate the error: it resolves with every input opportunity
carrying `lastContactDate = lastModifiedDate`. -/
theorem c4_merge_error_total_degradation (e : String) (opps : List RawOpp)
    (h : opps ≠ []) :
    addLastContactDates (.error e) opps = .ok (opps.map fallbackContact) := by
  cases opps with
  | nil => exact absurd rfl h
  | cons a t => simp [addLastContactDates]

/-- Witness for C4 at a concrete non-empty input. -/
theorem c4_witness :
    addLastContactDates (Except.error "activity query blew up") c4Opps
      = Except.ok (c4Opps.map fallbackContact) :=
  c4_merge_error_total_degradation "activity query blew up" c4Opps (by decide)

/-- C5: the failure of any single one of the four sub-queries of any batch
does not abort the merge — accumulating that batch with the failed query
is the same as accumulating it with an empty result, and the whole
`addLastContactDates` outcome is unchanged; all other queries and batches
still contribute. -/
theorem c5_failed_subquery_treated_as_empty (k : QueryKind)
    (pre post : List BatchQueryResults) (b : BatchQueryResults) :
    accumMaps (pre ++ setQueryResult k none b :: post)
      = accumMaps (pre ++ setQueryResult k (some []) b :: post)
    ∧ ∀ opportunities : List RawOpp,
      addLastContactDates (.ok (pre ++ setQueryResult k none b :: post))
          opportunities
        = addLastContactDates (.ok (pre ++ setQueryResult k (some []) b :: post))
            opportunities := by
  have hstep : ∀ m : ActivityMaps,
      accumBatch m (setQueryResult k none b)
        = accumBatch m (setQueryResult k (some []) b) := by
    intro m
    cases k <;> simp [accumBatch, setQueryResult, recordsOrEmpty]
  have hmaps : accumMaps (pre ++ setQueryResult k none b :: post)
      = accumMaps (pre ++ setQueryResult k (some []) b :: post) := by
    simp [accumMaps, List.foldl_append, List.foldl_cons, hstep]
  exact ⟨hmaps, fun opportunities => by simp [addLastContactDates, hmaps]⟩

/-- With every per-record upsert succeeding, the upsert loop counts the
whole list. -/
theorem runUpserts_all_ok (upsert : ContactOpp → Except String Unit)
    (opps : List ContactOpp) (h : ∀ o ∈ opps, upsert o = .ok ()) :
    runUpserts upsert opps = .ok opps.length := by
  induction opps with
  | nil => simp [runUpserts]
  | cons a t ih =>
    have ha : upsert a = .ok () := h a (by simp)
    have ht := ih (fun o ho => h o (by simp [ho]))
    simp [runUpserts, ha, ht]

/-- C9: when the fetch (or merge) step throws, `syncFromSalesforce`
appends one failed sync-log entry with count 0 and the error message and
re-throws; when every step succeeds, it appends one success entry with the
total count and returns `{ success: true, count }`. -/
theorem c9_sync_logging (upsert : ContactOpp → Except String Unit)
    (log : List SyncLogEntry) (now : String) :
    (∀ e, syncFromSalesforce (.error e) upsert log now
        = (.error e, log ++ [⟨"full_sync", "error", 0, some e, now⟩]))
    ∧ ∀ opps : List ContactOpp, (∀ o ∈ opps, upsert o = .ok ()) →
      syncFromSalesforce (.ok opps) upsert log now
        = (.ok ⟨true, opps.length⟩,
            log ++ [⟨"full_sync", "success", opps.length, none, now⟩]) := by
  constructor
  · intro e
    simp [syncFromSalesforce, logSync]
  · intro opps h
    simp [syncFromSalesforce, runUpserts_all_ok upsert opps h, logSync]

/-- Witness for C9: a one-record successful sync logs one success entry
with count 1 and returns it. -/
theorem c9_witness :
    syncFromSalesforce (Except.ok c9Opps) c9Upsert [] "T0"
      = (Except.ok ⟨true, c9Opps.length⟩,
          [] ++ [⟨"full_sync", "success", c9Opps.length, none, "T0"⟩]) :=
  (c9_sync_logging c9Upsert [] "T0").2 c9Opps (fun _ _ => rfl)

/-- Amended C6: every opportunity selected by the week filter has its
creation date inside the Monday-through-Sunday span of the computed ISO
week; conversely, an active opportunity passing the other filters is
selected precisely when its creation date lies between Monday 00:00:00 and
Sunday 00:00:00 inclusive — the filter's upper bound is the start of
Sunday, not its end. -/
theorem c6_week_filter_amended (f : OppFilters) (y w : Int) (row : StoredOpp)
    (hw : f.week = some (y, w)) :
    (rowSelected f row = true →
      inMondaySundaySpan (getWeekDateRange y w) row.created_date = true)
    ∧ (row.is_active = true → ownerFilterPass f row = true →
        nameFilterPass f row = true →
        ((getWeekDateRange y w).1 * msPerDay ≤ row.created_date
          ∧ row.created_date ≤ (getWeekDateRange y w).2 * msPerDay) →
      rowSelected f row = true) := by
  constructor
  · intro hsel
    have hparts : weekFilterPass f.week row.created_date = true := by
      simp only [rowSelected, Bool.and_eq_true] at hsel
      exact hsel.2
    rw [hw] at hparts
    simp only [weekFilterPass, Bool.and_eq_true, decide_eq_true_eq] at hparts
    simp only [inMondaySundaySpan, Bool.and_eq_true, decide_eq_true_eq]
    refine ⟨hparts.1, ?_⟩
    have h2 := hparts.2
    simp only [msPerDay] at h2 ⊢
    omega
  · intro ha hb hc hbounds
    simp only [rowSelected, Bool.and_eq_true]
    refine ⟨⟨⟨ha, hb⟩, hc⟩, ?_⟩
    rw [hw]
    simp only [weekFilterPass, Bool.and_eq_true, decide_eq_true_eq]
    exact hbounds

/-- Witness for the amended C6: a Tuesday-noon opportunity of 2024-W05 is
selected and lies in the Monday-through-Sunday span. -/
theorem c6_witness :
    rowSelected c6Filters c6MidweekRow = true
      ∧ inMondaySundaySpan (getWeekDateRange 2024 5)
          c6MidweekRow.created_date = true := by
  have h := c6_week_filter_amended c6Filters 2024 5 c6MidweekRow rfl
  have hsel := h.2 (by decide) (by decide) (by decide) ⟨by decide, by decide⟩
  exact ⟨hsel, h.1 hsel⟩

/-- Counterexample to C6 as stated: for week string "2024-W05", an active
opportunity created Sunday 2024-02-04 at 12:00 lies inside the
Monday-through-Sunday span (both endpoints inclusive) and passes every
other filter, yet the week filter rejects it, because the SQL upper bound
is the midnight instant that starts Sunday. -/
theorem c6_counterexample :
    getWeekDateRangeOfString "2024-W05" = some (getWeekDateRange 2024 5)
      ∧ inMondaySundaySpan (getWeekDateRange 2024 5)
          c6SundayRow.created_date = true
      ∧ c6SundayRow.is_active = true
      ∧ ownerFilterPass c6Filters c6SundayRow = true
      ∧ nameFilterPass c6Filters c6SundayRow = true
      ∧ rowSelected c6Filters c6SundayRow = false := by decide

/-- C1 (divergence witness): re-syncing an unchanged remote record leaves
one row and advances `updated_at` on both backends, and the synchronized
columns match the parameters on both backends; but on SQLite the
`INSERT OR REPLACE` deletes the annotated row and re-inserts it with
column defaults, wiping `priority_level`, `custom_notes`,
`follow_up_date` and `engagement_score`, while the PostgreSQL
`ON CONFLICT ... DO UPDATE` leaves those columns untouched. -/
theorem c1_sqlite_replace_resets_user_columns :
    c1SecondSqlite.length = 1
      ∧ (∀ r ∈ c1SecondSqlite,
          r.updated_at = SVal.text "TS2" ∧ r.name = c1Params.name
            ∧ r.stage = c1Params.stage ∧ r.amount = c1Params.amount
            ∧ r.last_sync = c1Params.last_sync
            ∧ r.priority_level = SVal.int 1 ∧ r.custom_notes = SVal.null
            ∧ r.follow_up_date = SVal.null ∧ r.engagement_score = SVal.int 0)
      ∧ (∀ r ∈ c1Annotated,
          r.priority_level = SVal.int 4
            ∧ r.custom_notes = SVal.text "call back Friday"
            ∧ r.follow_up_date = SVal.text "2024-02-10"
            ∧ r.engagement_score = SVal.int 3)
      ∧ c1SecondPg.length = 1
      ∧ (∀ r ∈ c1SecondPg,
          r.updated_at = SVal.text "TS2" ∧ r.name = c1Params.name
            ∧ r.stage = c1Params.stage ∧ r.amount = c1Params.amount
            ∧ r.priority_level = SVal.int 4
            ∧ r.custom_notes = SVal.text "call back Friday"
            ∧ r.follow_up_date = SVal.text "2024-02-10"
            ∧ r.engagement_score = SVal.int 3) := by decide

/-- A PostgreSQL bulk save containing any failing record rolls back to the
exact initial store. -/
theorem pg_bulk_rollback_restores_store (userId now : String)
    (prefs : List (PrefInput × Bool)) (store : List PrefRow)
    (h : ∃ p ∈ prefs, p.2 = false) :
    (saveMultipleUserPreferencesPg store userId prefs now).2 = store := by
  have hrun : ∀ s : List PrefRow, pgBulkRun userId now s prefs = none := by
    induction prefs with
    | nil => simp at h
    | cons a rest ih =>
      intro s
      rcases a with ⟨p, ok⟩
      cases ok with
      | false => simp [pgBulkRun]
      | true =>
        obtain ⟨q, hq, hq2⟩ := h
        rcases List.mem_cons.1 hq with hq1 | hq1
        · rw [hq1] at hq2; simp at hq2
        · simp only [pgBulkRun, if_true]
          exact ih ⟨q, hq1, hq2⟩ _
  simp [saveMultipleUserPreferencesPg, hrun]

/-- C3 (divergence witness): a SQLite bulk save of five records whose
third insert fails at the database level still resolves with count 5 and
commits the other four records — the batch is not all-or-nothing — while
the PostgreSQL branch of the same batch rolls back to the empty store and
rejects. -/
theorem c3_sqlite_bulk_partial_commit :
    (saveMultipleUserPreferencesSqlite [] "default" c3Items "T1").1
        = Except.ok 5
      ∧ ((saveMultipleUserPreferencesSqlite [] "default" c3Items "T1").2.map
            (fun r => r.opportunity_id))
          = [JVal.str "006A", JVal.str "006B", JVal.str "006D", JVal.str "006E"]
      ∧ saveMultipleUserPreferencesPg [] "default" c3PgPrefs "T1"
          = (Except.error "insert failed", []) :=
  ⟨rfl, by decide, rfl⟩

/-- C10: in both the single and the bulk preference write, a falsy
supplied field is replaced by the column default rather than stored as
given — position coordinates fall back to NULL, intent level to 5,
priority color to 'gray', follow-up date to NULL, the five-yard flag to 0;
in particular `position_x = 0` is stored as NULL, `intent_level = 0` as 5,
and an empty-string `priority_color` as 'gray'. -/
theorem c10_falsy_fields_fall_back_to_defaults (userId : String)
    (pref : PrefInput) :
    (pref.position_x = JVal.num 0 →
      (saveUserPreferencesBound userId pref).position_x = JVal.jnull)
    ∧ (pref.intent_level = JVal.num 0 →
      (saveUserPreferencesBound userId pref).intent_level = JVal.num 5)
    ∧ (pref.priority_color = JVal.str "" →
      (saveUserPreferencesBound userId pref).priority_color = JVal.str "gray")
    ∧ (pref.position_x.truthy = false →
      (saveUserPreferencesBound userId pref).position_x = JVal.jnull)
    ∧ (pref.position_y.truthy = false →
      (saveUserPreferencesBound userId pref).position_y = JVal.jnull)
    ∧ (pref.intent_level.truthy = false →
      (saveUserPreferencesBound userId pref).intent_level = JVal.num 5)
    ∧ (pref.priority_color.truthy = false →
      (saveUserPreferencesBound userId pref).priority_color = JVal.str "gray")
    ∧ (pref.follow_up_date.truthy = false →
      (saveUserPreferencesBound userId pref).follow_up_date = JVal.jnull)
    ∧ (pref.five_yard_line.truthy = false →
      (saveUserPreferencesBound userId pref).five_yard_line = JVal.num 0)
    ∧ bulkStmtBound userId pref = saveUserPreferencesBound userId pref := by
  refine ⟨?_, ?_, ?_, ?_, ?_, ?_, ?_, ?_, ?_, rfl⟩ <;> intro h
  · simp [saveUserPreferencesBound, JVal.orFallback, h, JVal.truthy]
  · simp [saveUserPreferencesBound, JVal.orFallback, h, JVal.truthy]
  · simp [saveUserPreferencesBound, JVal.orFallback, h, JVal.truthy]
  · simp [saveUserPreferencesBound, JVal.orFallback, h]
  · simp [saveUserPreferencesBound, JVal.orFallback, h]
  · simp [saveUserPreferencesBound, JVal.orFallback, h]
  · simp [saveUserPreferencesBound, JVal.orFallback, h]
  · simp [saveUserPreferencesBound, JVal.orFallback, h]
  · simp [saveUserPreferencesBound, JVal.orFallback, h]

/-- Witness for C10 at a concrete preference object: coordinates 0 are
stored as NULL, intent level 0 as 5, empty priority color as 'gray'. -/
theorem c10_witness :
    (saveUserPreferencesBound "default" c10Pref).position_x = JVal.jnull
      ∧ (saveUserPreferencesBound "default" c10Pref).intent_level = JVal.num 5
      ∧ (saveUserPreferencesBound "default" c10Pref).priority_color
          = JVal.str "gray" :=
  ⟨(c10_falsy_fields_fall_back_to_defaults "default" c10Pref).1 rfl,
    (c10_falsy_fields_fall_back_to_defaults "default" c10Pref).2.1 rfl,
    (c10_falsy_fields_fall_back_to_defaults "default" c10Pref).2.2.1 rfl⟩

end SalesforceDashboard
